import Mathlib

/-!
Verification of the GDP growth prediction pipeline.

This file gives a shallow embedding of the pipeline of the
GDP_GROW_PREDICTION-MODEL repository and proves properties of it:

* the lagged feature builder `create_lagged_features`
  (BEFORE_AFTER_COMPARISON.md, Issue 1),
* the temporal splitter `temporal_train_test_split`
  (BEFORE_AFTER_COMPARISON.md, Issue 2),
* the input validator `validate_prediction_input`
  (BEFORE_AFTER_COMPARISON.md, Issue 4),
* the prediction service with its simulation fallback (documented in
  FULLSTACK_README.md; the backend source itself is not part of the
  source tree, so that single component is modelled from the spec),
* the timeline transformer `addPredictionToTimeline`
  (design document, Data Transformation Functions),
* the dashboard request assembly and predict guard
  (frontend/src/app/components/dashboard.tsx).

Numbers are modelled as rationals.  Because the library's rational
addition and multiplication are irreducible for kernel evaluation, the
embedding performs arithmetic through `mkRat` on numerators and
denominators; `jsMul_eq_mul` and friends relate those operations to the
ordinary field operations.
-/

/-! ## String helpers

Lexicographic order on strings, evaluated character by character via the
character code, mirroring the ordering pandas uses when sorting a string
column.  The library's built-in string order does not reduce under
kernel evaluation, so the order is re-implemented on the character
list. -/

/-- Lexicographic strict order on character lists, by character code. -/
def strLtB : List Char → List Char → Bool
  | [], [] => false
  | [], _ :: _ => true
  | _ :: _, [] => false
  | a :: as, b :: bs =>
    if a.toNat = b.toNat then strLtB as bs
    else decide (a.toNat < b.toNat)

theorem charToNat_inj {a b : Char} (h : a.toNat = b.toNat) : a = b :=
  Char.eq_of_val_eq (UInt32.toNat.inj h)

theorem strLtB_irrefl : ∀ a : List Char, strLtB a a = false
  | [] => rfl
  | c :: cs => by simp [strLtB, strLtB_irrefl cs]

theorem strLtB_trans :
    ∀ (a b c : List Char), strLtB a b = true → strLtB b c = true →
      strLtB a c = true
  | [], [], _, hab, _ => by simp [strLtB] at hab
  | [], _ :: _, [], _, hbc => by simp [strLtB] at hbc
  | [], _ :: _, _ :: _, _, _ => rfl
  | _ :: _, [], _, hab, _ => by simp [strLtB] at hab
  | _ :: _, _ :: _, [], _, hbc => by simp [strLtB] at hbc
  | x :: xs, y :: ys, z :: zs, hab, hbc => by
    simp only [strLtB] at hab hbc ⊢
    by_cases hxy : x.toNat = y.toNat
    · rw [if_pos hxy] at hab
      by_cases hyz : y.toNat = z.toNat
      · rw [if_pos hyz] at hbc
        rw [if_pos (hxy.trans hyz)]
        exact strLtB_trans xs ys zs hab hbc
      · rw [if_neg hyz] at hbc
        have hxz : ¬ x.toNat = z.toNat := by rw [hxy]; exact hyz
        rw [if_neg hxz, hxy]
        exact hbc
    · rw [if_neg hxy] at hab
      have hlt : x.toNat < y.toNat := of_decide_eq_true hab
      by_cases hyz : y.toNat = z.toNat
      · have hxz : x.toNat < z.toNat := hyz ▸ hlt
        rw [if_neg (Nat.ne_of_lt hxz)]
        exact decide_eq_true hxz
      · rw [if_neg hyz] at hbc
        have hxz : x.toNat < z.toNat := hlt.trans (of_decide_eq_true hbc)
        rw [if_neg (Nat.ne_of_lt hxz)]
        exact decide_eq_true hxz

theorem strLtB_eq_of_not :
    ∀ (a b : List Char), strLtB a b = false → strLtB b a = false → a = b
  | [], [], _, _ => rfl
  | [], _ :: _, hab, _ => by simp [strLtB] at hab
  | _ :: _, [], _, hba => by simp [strLtB] at hba
  | x :: xs, y :: ys, hab, hba => by
    simp only [strLtB] at hab hba
    by_cases hxy : x.toNat = y.toNat
    · rw [if_pos hxy] at hab
      rw [if_pos hxy.symm] at hba
      have hx : x = y := charToNat_inj hxy
      have hxs : xs = ys := strLtB_eq_of_not xs ys hab hba
      rw [hx, hxs]
    · exfalso
      rw [if_neg hxy] at hab
      rw [if_neg (fun h => hxy h.symm)] at hba
      have h1 : ¬ x.toNat < y.toNat := of_decide_eq_false hab
      have h2 : ¬ y.toNat < x.toNat := of_decide_eq_false hba
      exact hxy (Nat.le_antisymm (Nat.le_of_not_lt h2) (Nat.le_of_not_lt h1))

/-- Python's str.strip / the whitespace trimming of the validator:
drop whitespace characters from both ends of the string. -/
def pyStrip (s : String) : String :=
  String.mk (((s.data.dropWhile Char.isWhitespace).reverse.dropWhile
    Char.isWhitespace).reverse)

/-- Value of a list of decimal digit characters. -/
def natOfDigits (cs : List Char) : Nat :=
  cs.foldl (fun n c => 10 * n + (c.toNat - 48)) 0

/-- Numeric coercion of a string, as Python's float applied to a string
and as the parse of a numeric input-field value: optional surrounding
whitespace, an optional sign, then digits with an optional fractional
part.  Exponent forms and the infinity and nan spellings do not occur in
the repository's data and are not modelled. -/
def parseDecimal (s : String) : Option ℚ :=
  let cs := (pyStrip s).data
  let signAndDigits : Int × List Char :=
    match cs with
    | '-' :: t => (-1, t)
    | '+' :: t => (1, t)
    | t => (1, t)
  let sgn := signAndDigits.1
  let body := signAndDigits.2
  let ip := body.takeWhile Char.isDigit
  let rest := body.dropWhile Char.isDigit
  match rest with
  | [] =>
    if ip.isEmpty then none
    else some (mkRat (sgn * natOfDigits ip) 1)
  | '.' :: frac =>
    if frac.all Char.isDigit ∧ (ip.isEmpty = false ∨ frac.isEmpty = false) then
      some (mkRat (sgn * (natOfDigits ip * 10 ^ frac.length + natOfDigits frac))
        (10 ^ frac.length))
    else none
  | _ => none

/-- Smallest number of decimal digits that represents the rational
exactly, when one of at most twenty digits does. -/
def decExponent (q : ℚ) : Option Nat :=
  (List.range 21).find? (fun k => 10 ^ k % q.den = 0)

/-- Left-pad a string with zeros to the given length. -/
def padZeros (s : String) (k : Nat) : String :=
  String.mk (List.replicate (k - s.length) '0') ++ s

/-- Rendering of a number the way Python string-formats a float: an
integral value prints with a trailing .0, other decimal values print
with their fractional digits.  Exact for every decimal number, which
covers all values the pipeline formats. -/
def pyFloatRepr (q : ℚ) : String :=
  if q.den = 1 then toString q.num ++ ".0"
  else
    match decExponent q with
    | none => toString q.num ++ "/" ++ toString q.den
    | some k =>
      let scaled : Int := q.num * (10 ^ k / (q.den : Int))
      let mag : Nat := scaled.natAbs
      let sgn : String := if q.num < 0 then "-" else ""
      sgn ++ toString (mag / 10 ^ k) ++ "." ++
        padZeros (toString (mag % 10 ^ k)) k

/-- Multiplication of rationals through mkRat; kernel-reducible, and
equal to ordinary multiplication by jsMul_eq_mul. -/
def jsMul (a b : ℚ) : ℚ := mkRat (a.num * b.num) (a.den * b.den)

theorem jsMul_eq_mul (a b : ℚ) : jsMul a b = a * b := by
  unfold jsMul
  rw [Rat.mkRat_eq_div]
  push_cast
  conv_rhs => rw [← Rat.num_div_den a, ← Rat.num_div_den b]
  rw [div_mul_div_comm]

/-- Rounding to two decimal places, half toward positive infinity: the
rounding JavaScript's toFixed(2) performs and the embedding of the
round(x, 2) calls of the backend.  Implemented on numerator and
denominator so that it evaluates in the kernel. -/
def roundTo2 (q : ℚ) : ℚ :=
  mkRat (Int.fdiv (2 * (q.num * 100) + (q.den : Int)) (2 * (q.den : Int))) 100

/-! ## Data model

IndicatorSet is one entity-year observation from the training corpus:
the six indicator growth rates plus the observed GDP growth, keyed by
country and year (the columns of final_data_with_year.csv used by
create_lagged_features). -/

structure IndicatorSet where
  country : String
  year : Int
  population_growth : ℚ
  exports_growth : ℚ
  imports_growth : ℚ
  investment_growth : ℚ
  consumption_growth : ℚ
  govt_spend_growth : ℚ
  gdp_growth : ℚ
deriving DecidableEq

/-- The six lag-1 feature columns of one training row. -/
structure LagFeatures where
  population_growth : ℚ
  exports_growth : ℚ
  imports_growth : ℚ
  investment_growth : ℚ
  consumption_growth : ℚ
  govt_spend_growth : ℚ
deriving DecidableEq

/-- The six indicator values of a record, as a feature vector. -/
def featureVec (r : IndicatorSet) : LagFeatures :=
  ⟨r.population_growth, r.exports_growth, r.imports_growth,
   r.investment_growth, r.consumption_growth, r.govt_spend_growth⟩

/-- One row of the lagged training frame: the row of year `year` keeps
its country, year and GDP-growth target, and carries the six Lag1
columns.  `featYear` records which year the shift(1) took the feature
values from; it is the year of the group predecessor row and is the
provenance the no-lookahead statements are about. -/
structure LaggedRow where
  country : String
  year : Int
  featYear : Int
  features : LagFeatures
  target : ℚ
deriving DecidableEq

/-- The lagged row produced for record `cur` when `prev` is its
predecessor within the same country group of the sorted frame. -/
def mkLagged (prev cur : IndicatorSet) : LaggedRow :=
  ⟨cur.country, cur.year, prev.year, featureVec prev, cur.gdp_growth⟩

/-! ## Lagged feature builder

Embedding of create_lagged_features (BEFORE_AFTER_COMPARISON.md):
sort_values by Country and Year, then per-country shift(1) of the six
indicator columns, then dropna.  On the frame sorted by country and
year, groupby-shift(1) aligns every row with the directly preceding row
when that row belongs to the same country, and dropna removes exactly
the rows without such a predecessor (the first row of each country
run), so the builder is the pass over adjacent pairs below. -/

/-- Sort key of sort_values by Country then Year. -/
def recLE (a b : IndicatorSet) : Prop :=
  strLtB a.country.data b.country.data = true ∨
    (a.country = b.country ∧ a.year ≤ b.year)

instance : DecidableRel recLE := fun a b =>
  inferInstanceAs (Decidable (_ ∨ _))

instance : IsTrans IndicatorSet recLE where
  trans a b c hab hbc := by
    rcases hab with hab | ⟨hab, hay⟩
    · rcases hbc with hbc | ⟨hbc, hby⟩
      · exact Or.inl (strLtB_trans _ _ _ hab hbc)
      · exact Or.inl (hbc ▸ hab)
    · rcases hbc with hbc | ⟨hbc, hby⟩
      · exact Or.inl (hab ▸ hbc)
      · exact Or.inr ⟨hab.trans hbc, hay.trans hby⟩

instance : IsTotal IndicatorSet recLE where
  total a b := by
    by_cases h1 : strLtB a.country.data b.country.data = true
    · exact Or.inl (Or.inl h1)
    · by_cases h2 : strLtB b.country.data a.country.data = true
      · exact Or.inr (Or.inl h2)
      · have hc : a.country = b.country := by
          apply String.ext
          exact strLtB_eq_of_not a.country.data b.country.data
            (Bool.eq_false_iff.mpr h1) (Bool.eq_false_iff.mpr h2)
        rcases Int.le_total a.year b.year with h | h
        · exact Or.inl (Or.inr ⟨hc, h⟩)
        · exact Or.inr (Or.inr ⟨hc.symm, h⟩)

/-- The sort_values step: sort the records by country, then year. -/
def sortRecords (records : List IndicatorSet) : List IndicatorSet :=
  records.insertionSort recLE

/-- Pass over the sorted frame pairing every row with its direct
predecessor: the row is kept, with the predecessor's six indicator
values as its Lag1 features, exactly when the predecessor belongs to
the same country; otherwise the row is the first of its country run,
its shifted columns are NaN, and dropna removes it. -/
def lagPass : List IndicatorSet → List LaggedRow
  | [] => []
  | [_] => []
  | p :: c :: rest =>
    (if p.country = c.country then [mkLagged p c] else []) ++
      lagPass (c :: rest)

/-- create_lagged_features from BEFORE_AFTER_COMPARISON.md. -/
def create_lagged_features (records : List IndicatorSet) : List LaggedRow :=
  lagPass (sortRecords records)

/-! ## Lemmas about the lagged feature builder -/

/-- Two records sit next to each other, in this order, in the list. -/
def AdjacentIn (l : List IndicatorSet) (p q : IndicatorSet) : Prop :=
  ∃ l₁ l₂, l = l₁ ++ p :: q :: l₂

theorem adjacentIn_cons {x : IndicatorSet} {l : List IndicatorSet}
    {p q : IndicatorSet} (h : AdjacentIn l p q) : AdjacentIn (x :: l) p q := by
  obtain ⟨l₁, l₂, rfl⟩ := h
  exact ⟨x :: l₁, l₂, rfl⟩

theorem adjacentIn_rel {R : IndicatorSet → IndicatorSet → Prop}
    {l : List IndicatorSet} {p q : IndicatorSet}
    (hp : l.Pairwise R) (h : AdjacentIn l p q) : R p q := by
  obtain ⟨l₁, l₂, rfl⟩ := h
  have hsub : [p, q].Sublist (l₁ ++ p :: q :: l₂) := by
    refine List.Sublist.trans ?_ (List.sublist_append_right l₁ _)
    exact List.cons_sublist_cons.mpr
      (List.cons_sublist_cons.mpr (List.nil_sublist l₂))
  have hpq := List.Pairwise.sublist hsub hp
  exact (List.pairwise_cons.mp hpq).1 q (by simp)

theorem adjacentIn_mem_left {l : List IndicatorSet} {p q : IndicatorSet}
    (h : AdjacentIn l p q) : p ∈ l := by
  obtain ⟨l₁, l₂, rfl⟩ := h
  simp

theorem adjacentIn_mem_right {l : List IndicatorSet} {p q : IndicatorSet}
    (h : AdjacentIn l p q) : q ∈ l := by
  obtain ⟨l₁, l₂, rfl⟩ := h
  simp

/-- Records of one country carry pairwise distinct years; this is the
shape of the training corpus, in which a record is one entity-year
observation. -/
def KeysDistinct (l : List IndicatorSet) : Prop :=
  l.Pairwise (fun a b => a.country = b.country → a.year ≠ b.year)

instance (l : List IndicatorSet) : Decidable (KeysDistinct l) :=
  inferInstanceAs (Decidable (l.Pairwise _))

theorem keysDistinct_symm :
    ∀ {x y : IndicatorSet},
      (x.country = y.country → x.year ≠ y.year) →
      (y.country = x.country → y.year ≠ x.year) :=
  fun h hc hy => h hc.symm hy.symm

/-- Every row the pass emits comes from an adjacent same-country pair. -/
theorem mem_lagPass :
    ∀ (l : List IndicatorSet) (row : LaggedRow), row ∈ lagPass l →
      ∃ p q, AdjacentIn l p q ∧ p.country = q.country ∧ row = mkLagged p q
  | [], row, h => by simp [lagPass] at h
  | [_], row, h => by simp [lagPass] at h
  | p :: c :: rest, row, h => by
    simp only [lagPass, List.mem_append] at h
    rcases h with h1 | h2
    · by_cases hpc : p.country = c.country
      · rw [if_pos hpc] at h1
        have hrow : row = mkLagged p c := by simpa using h1
        exact ⟨p, c, ⟨[], rest, rfl⟩, hpc, hrow⟩
      · rw [if_neg hpc] at h1
        simp at h1
    · obtain ⟨a, b, hadj, hc, hrow⟩ := mem_lagPass (c :: rest) row h2
      exact ⟨a, b, adjacentIn_cons hadj, hc, hrow⟩

/-- In a sorted duplicate-free frame, an adjacent same-country pair is
strictly increasing in year. -/
theorem adjacent_year_lt {l : List IndicatorSet}
    (hsorted : l.Pairwise recLE) (hkeys : KeysDistinct l)
    {p q : IndicatorSet} (hadj : AdjacentIn l p q)
    (hc : p.country = q.country) : p.year < q.year := by
  have hle := adjacentIn_rel hsorted hadj
  have hne : p.year ≠ q.year := adjacentIn_rel hkeys hadj hc
  rcases hle with h | ⟨_, hy⟩
  · rw [hc] at h
    rw [strLtB_irrefl] at h
    exact absurd h (by simp)
  · exact lt_of_le_of_ne hy hne

/-- A record whose country sorts strictly below the head of a sorted
tail never reappears in that tail. -/
theorem country_not_in_sorted_tail {p c : IndicatorSet}
    {rest : List IndicatorSet}
    (hp : (p :: c :: rest).Pairwise recLE)
    (hpc : p.country ≠ c.country) :
    ∀ x ∈ c :: rest, x.country ≠ p.country := by
  intro x hx hxc
  have hrelpc : recLE p c := (List.pairwise_cons.mp hp).1 c (by simp)
  have hlt : strLtB p.country.data c.country.data = true := by
    rcases hrelpc with h | ⟨h, _⟩
    · exact h
    · exact absurd h hpc
  rcases List.mem_cons.mp hx with rfl | hxrest
  · exact hpc hxc.symm
  · have hp2 := (List.pairwise_cons.mp hp).2
    have hrelcx : recLE c x := (List.pairwise_cons.mp hp2).1 x hxrest
    rcases hrelcx with h | ⟨h, _⟩
    · rw [hxc] at h
      have := strLtB_trans _ _ _ hlt h
      rw [strLtB_irrefl] at this
      exact absurd this (by simp)
    · exact hpc (h ▸ hxc).symm

/-- Counting rows of one country: relative to the sorted input frame,
the pass emits one row fewer than the country has records (and none
when the country is absent; the subtraction is the truncated one). -/
theorem lagPass_count (cty : String) :
    ∀ (l : List IndicatorSet), l.Pairwise recLE →
      (lagPass l).countP (fun row => decide (row.country = cty)) =
        l.countP (fun r => decide (r.country = cty)) - 1
  | [], _ => by simp [lagPass]
  | [r], _ => by
    by_cases h : r.country = cty <;>
      simp [lagPass, List.countP_cons, h]
  | p :: c :: rest, hp => by
    have hp2 : (c :: rest).Pairwise recLE := (List.pairwise_cons.mp hp).2
    have IH := lagPass_count cty (c :: rest) hp2
    simp only [lagPass, List.countP_append]
    by_cases hpc : p.country = c.country
    · rw [if_pos hpc]
      by_cases hcc : c.country = cty
      · have hone : (List.countP (fun row => decide (row.country = cty))
            [mkLagged p c]) = 1 := by simp [mkLagged, hcc]
        have hpos : 0 < (c :: rest).countP (fun r => decide (r.country = cty)) := by
          apply List.countP_pos.mpr
          exact ⟨c, by simp, by simp [hcc]⟩
        have hptop : (p :: c :: rest).countP (fun r => decide (r.country = cty)) =
            (c :: rest).countP (fun r => decide (r.country = cty)) + 1 := by
          apply List.countP_cons_of_pos
          simp [hpc, hcc]
        rw [hone, IH, hptop]
        omega
      · have hzero : (List.countP (fun row => decide (row.country = cty))
            [mkLagged p c]) = 0 := by simp [mkLagged, hcc]
        have hpcty : ¬ p.country = cty := fun h => hcc (hpc ▸ h)
        have hptop : (p :: c :: rest).countP (fun r => decide (r.country = cty)) =
            (c :: rest).countP (fun r => decide (r.country = cty)) := by
          apply List.countP_cons_of_neg
          simp [hpcty]
        rw [hzero, IH, hptop]
        omega
    · rw [if_neg hpc]
      by_cases hpcty : p.country = cty
      · have hzero : (c :: rest).countP (fun r => decide (r.country = cty)) = 0 := by
          rw [List.countP_eq_zero]
          intro x hx
          have hxne := country_not_in_sorted_tail hp hpc x hx
          simp only [decide_eq_true_eq]
          intro hxc
          exact hxne (hxc.trans hpcty.symm)
        have hptop : (p :: c :: rest).countP (fun r => decide (r.country = cty)) =
            (c :: rest).countP (fun r => decide (r.country = cty)) + 1 := by
          apply List.countP_cons_of_pos
          simp [hpcty]
        rw [IH, hptop, hzero]
        simp
      · have hptop : (p :: c :: rest).countP (fun r => decide (r.country = cty)) =
            (c :: rest).countP (fun r => decide (r.country = cty)) := by
          apply List.countP_cons_of_neg
          simp [hpcty]
        rw [IH, hptop]
        simp

/-- Emission: a record that is not the earliest of its country still
produces a row (in particular at gap years), and the row's features are
the recorded values of a same-country record from a strictly earlier
year. -/
theorem lagPass_emits :
    ∀ (l : List IndicatorSet), l.Pairwise recLE → KeysDistinct l →
      ∀ r ∈ l, ∀ r₀ ∈ l, r₀.country = r.country → r₀.year < r.year →
      ∃ row ∈ lagPass l, row.country = r.country ∧ row.year = r.year ∧
        row.featYear < r.year ∧
        ∃ src ∈ l, src.country = r.country ∧ src.year = row.featYear ∧
          row.features = featureVec src
  | [], _, _, r, hr, _, _, _, _ => by simp at hr
  | [x], _, _, r, hr, r₀, hr₀, hc, hy => by
    rw [List.mem_singleton] at hr hr₀
    rw [hr, hr₀] at hy
    exact absurd hy (lt_irrefl _)
  | p :: c :: rest, hsorted, hkeys, r, hr, r₀, hr₀, hc, hy => by
    have hsorted2 : (c :: rest).Pairwise recLE :=
      (List.pairwise_cons.mp hsorted).2
    have hkeys2 : KeysDistinct (c :: rest) :=
      (List.pairwise_cons.mp hkeys).2
    rcases List.mem_cons.mp hr with rfl | hrtail
    · exfalso
      rcases List.mem_cons.mp hr₀ with rfl | hr₀tail
      · exact absurd hy (lt_irrefl _)
      · have hrel : recLE r r₀ :=
          (List.pairwise_cons.mp hsorted).1 r₀ hr₀tail
        rcases hrel with h | ⟨_, h⟩
        · rw [hc] at h
          rw [strLtB_irrefl] at h
          exact absurd h (by simp)
        · exact absurd hy (not_lt.mpr h)
    · rcases List.mem_cons.mp hr₀ with rfl | hr₀tail
      · by_cases hpc : r₀.country = c.country
        · rcases List.mem_cons.mp hrtail with rfl | hrrest
          · refine ⟨mkLagged r₀ r, ?_, rfl, rfl, hy, r₀, by simp, hc, rfl, rfl⟩
            simp only [lagPass, List.mem_append]
            exact Or.inl (by simp [hpc])
          · have hcyc : c.country = r.country := hpc ▸ hc
            have hcylt : c.year < r.year := by
              have hrel : recLE c r :=
                (List.pairwise_cons.mp hsorted2).1 r hrrest
              have hne : c.year ≠ r.year :=
                (List.pairwise_cons.mp hkeys2).1 r hrrest hcyc
              rcases hrel with h | ⟨_, h⟩
              · rw [hcyc] at h
                rw [strLtB_irrefl] at h
                exact absurd h (by simp)
              · exact lt_of_le_of_ne h hne
            obtain ⟨row, hrow, h1, h2, h3, src, hsrc, h4, h5, h6⟩ :=
              lagPass_emits (c :: rest) hsorted2 hkeys2 r
                (by simp [hrrest]) c (by simp) hcyc hcylt
            refine ⟨row, ?_, h1, h2, h3, src, by simp [hsrc], h4, h5, h6⟩
            simp only [lagPass, List.mem_append]
            exact Or.inr hrow
        · exfalso
          have hne : ∀ x ∈ c :: rest, x.country ≠ r₀.country :=
            country_not_in_sorted_tail hsorted hpc
          exact hne r hrtail hc.symm
      · obtain ⟨row, hrow, h1, h2, h3, src, hsrc, h4, h5, h6⟩ :=
          lagPass_emits (c :: rest) hsorted2 hkeys2 r hrtail r₀ hr₀tail hc hy
        refine ⟨row, ?_, h1, h2, h3, src, by simp [hsrc], h4, h5, h6⟩
        simp only [lagPass, List.mem_append]
        exact Or.inr hrow

theorem sortRecords_perm (records : List IndicatorSet) :
    (sortRecords records).Perm records :=
  List.perm_insertionSort recLE records

theorem sortRecords_sorted (records : List IndicatorSet) :
    (sortRecords records).Pairwise recLE :=
  List.sorted_insertionSort recLE records

theorem sortRecords_keysDistinct {records : List IndicatorSet}
    (h : KeysDistinct records) : KeysDistinct (sortRecords records) :=
  (List.Perm.pairwise_iff keysDistinct_symm (sortRecords_perm records)).mpr h

/-! ## Temporal splitter

Embedding of temporal_train_test_split (BEFORE_AFTER_COMPARISON.md,
Issue 2): the train frame keeps the rows with Year below the split
year, the test frame the rows with Year at or above it, both in input
order. -/

def temporal_train_test_split (rows : List LaggedRow) (split_year : Int) :
    List LaggedRow × List LaggedRow :=
  (rows.filter (fun r => decide (r.year < split_year)),
   rows.filter (fun r => decide (r.year ≥ split_year)))

/-! ## Input validator

Embedding of validate_prediction_input (BEFORE_AFTER_COMPARISON.md,
Issue 4).  A payload is the JSON object of the request body: a list of
field-name and value pairs with distinct names.  A value is a JSON
number, a string, or null. -/

inductive RawValue where
  | num (q : ℚ)
  | str (s : String)
  | null
deriving DecidableEq

/-- The request body. -/
def Payload : Type := List (String × RawValue)

/-- Field access: the value stored under a name, when present. -/
def plookup (f : String) (data : Payload) : Option RawValue :=
  (List.find? (fun kv => decide (kv.1 = f)) data).map Prod.snd

/-- Field access after the missing-field check has passed; the default
branch is unreachable there. -/
def pget (f : String) (data : Payload) : RawValue :=
  (plookup f data).getD RawValue.null

/-- Python float applied to a field value: numbers coerce to
themselves, strings coerce through the decimal parse, null (None)
raises and therefore yields no value, as do non-numeric strings. -/
def pyFloat : RawValue → Option ℚ
  | RawValue.num q => some q
  | RawValue.str s => parseDecimal s
  | RawValue.null => none

/-- Python str applied to a field value, for the Country field. -/
def pyStr : RawValue → String
  | RawValue.num q => pyFloatRepr q
  | RawValue.str s => s
  | RawValue.null => "None"

def required_fields : List String :=
  ["Country", "Population", "Exports", "Imports",
   "Investment", "Consumption", "Govt_Spend"]

def numeric_fields : List String :=
  ["Population", "Exports", "Imports", "Investment",
   "Consumption", "Govt_Spend"]

/-- The validation loop over the numeric fields, in enumeration order:
coerce the field, then range-check it, both before moving to the next
field; the first failure wins and its message is returned. -/
def checkNumerics : List String → Payload → Except String (List (String × ℚ))
  | [], _ => Except.ok []
  | f :: fs, data =>
    match pyFloat (pget f data) with
    | none => Except.error ("Invalid " ++ f ++ " value: must be a number")
    | some v =>
      if ¬(-100 ≤ v ∧ v ≤ 100) then
        Except.error (f ++ " value " ++ pyFloatRepr v ++
          " is outside reasonable range")
      else
        match checkNumerics fs data with
        | Except.error m => Except.error m
        | Except.ok kvs => Except.ok ((f, v) :: kvs)

/-- The triple validate_prediction_input returns: the success flag, the
error message of a failure, and the validated data of a success (the
trimmed country and the coerced numeric fields in enumeration
order). -/
structure VResult where
  ok : Bool
  msg : Option String
  validated : Option (String × List (String × ℚ))
deriving DecidableEq

/-- validate_prediction_input from BEFORE_AFTER_COMPARISON.md: reject
when any required field is missing, naming all missing fields at once;
then trim Country and reject when empty; then run the per-field
coercion and range checks. -/
def validate_prediction_input (data : Payload) : VResult :=
  let missing := required_fields.filter (fun f => (plookup f data).isNone)
  if missing.isEmpty = false then
    ⟨false, some ("Missing required fields: " ++
      String.intercalate ", " missing), none⟩
  else
    let country := pyStrip (pyStr (pget "Country" data))
    if country = "" then
      ⟨false, some "Country name cannot be empty", none⟩
    else
      match checkNumerics numeric_fields data with
      | Except.error m => ⟨false, some m, none⟩
      | Except.ok kvs => ⟨true, none, some (country, kvs)⟩

/-! ## Prediction service

The backend predict endpoint with its simulation fallback.  The Flask
application itself (backend/app.py) is not part of the source tree;
only its documentation is (FULLSTACK_README.md: fallback simulation
when model unavailable), so this component is modelled from the
spec. -/

/-- The six scenario inputs of one prediction request, after
validation. -/
structure ScenarioInputs where
  population : ℚ
  exports : ℚ
  imports : ℚ
  investment : ℚ
  consumption : ℚ
  govt_spend : ℚ
deriving DecidableEq

inductive PredMethod where
  | model
  | simulation
deriving DecidableEq

structure PredictionResult where
  predicted_growth : ℚ
  method : PredMethod
deriving DecidableEq

/-- Modelled from the spec: the deterministic fallback simulation of
section 4.4, a fixed weighted linear combination of the six inputs.
The backend source holding the concrete weights is absent from the
tree; the weights here follow the contribution weighting the dashboard
displays, and the spec leaves the exact values as fixed
configuration. -/
def simulate_growth (i : ScenarioInputs) : ℚ :=
  mkRat 15 100 * i.population + mkRat 25 100 * i.exports -
    mkRat 20 100 * i.imports + mkRat 20 100 * i.investment +
    mkRat 15 100 * i.consumption + mkRat 5 100 * i.govt_spend

/-- Modelled from the spec: the prediction operation of section 4.4.
The primary forecasting capability is a function returning no value
when it is unavailable (model not loaded, internal numerical error,
shape mismatch); on a value the result is tagged model, otherwise the
simulation fallback supplies the estimate and the result is tagged
simulation.  Either way the growth is rounded to two decimals and a
result is always returned, never an error. -/
def predict_service (primary : ScenarioInputs → Option ℚ)
    (i : ScenarioInputs) : PredictionResult :=
  match primary i with
  | some g => ⟨roundTo2 g, PredMethod.model⟩
  | none => ⟨roundTo2 (simulate_growth i), PredMethod.simulation⟩

/-! ## Timeline transformer

Embedding of addPredictionToTimeline from the design document (Data
Transformation Functions): append two prediction points, for the years
2025 and 2026, with the predicted growth and the predicted growth
scaled by 1.05, each rounded to two decimals. -/

inductive PointKind where
  | historical
  | prediction
deriving DecidableEq

/-- One renderable chart point: stringified year, growth rounded to two
decimals, and the historical-or-prediction tag (the field the frontend
calls type). -/
structure ChartDataPoint where
  year : String
  growth : ℚ
  kind : PointKind
deriving DecidableEq

def addPredictionToTimeline (predictedGrowth : ℚ)
    (existingData : List ChartDataPoint) : List ChartDataPoint :=
  existingData ++
    [⟨"2025", roundTo2 predictedGrowth, PointKind.prediction⟩,
     ⟨"2026", roundTo2 (jsMul predictedGrowth (mkRat 105 100)),
       PointKind.prediction⟩]

/-! ## Dashboard

Embedding of the request assembly and the predict guard of
frontend/src/app/components/dashboard.tsx (handlePredict and the
Generate Prediction button). -/

/-- The dashboard state the predict handler reads and writes: the
selected country, the six indicator input strings, the calculating
flag, and the prediction, method and error state. -/
structure DashboardState where
  selectedCountry : String
  populationGrowth : String
  exportsGrowth : String
  importsGrowth : String
  investment : String
  consumption : String
  governmentSpending : String
  isCalculating : Bool
  prediction : Option ℚ
  predictionMethod : String
  apiError : Option String
deriving DecidableEq

/-- JavaScript parseFloat of an input-field value; no value stands for
NaN, and JSON serialization turns NaN into null. -/
def jsParseFloat (s : String) : Option ℚ := parseDecimal s

def numToRaw : Option ℚ → RawValue
  | some q => RawValue.num q
  | none => RawValue.null

/-- The request body handlePredict assembles (dashboard.tsx lines
166 to 175): the exact field names of the requestData object literal,
with the Government Spending input mapped to Govt_Spend_Growth_Rate. -/
def buildPredictionRequest (s : DashboardState) : Payload :=
  [("Country", RawValue.str s.selectedCountry),
   ("Population_Growth_Rate", numToRaw (jsParseFloat s.populationGrowth)),
   ("Exports_Growth_Rate", numToRaw (jsParseFloat s.exportsGrowth)),
   ("Imports_Growth_Rate", numToRaw (jsParseFloat s.importsGrowth)),
   ("Investment_Growth_Rate", numToRaw (jsParseFloat s.investment)),
   ("Consumption_Growth_Rate", numToRaw (jsParseFloat s.consumption)),
   ("Govt_Spend_Growth_Rate", numToRaw (jsParseFloat s.governmentSpending))]

/-- The seven wire names the specification asserts for the request
body; stated from the spec for comparison with the embedding of the
code. -/
def specWireNames : List String :=
  ["country", "population_growth", "exports_growth", "imports_growth",
   "investment_growth", "consumption_growth", "govt_spend_growth"]

/-- The guard at the top of handlePredict (dashboard.tsx line 158): a
missing country or an empty indicator input makes the handler return
at once. -/
def predictGuardFails (s : DashboardState) : Bool :=
  decide (s.selectedCountry = "") || decide (s.populationGrowth = "") ||
    decide (s.exportsGrowth = "") || decide (s.importsGrowth = "") ||
    decide (s.investment = "") || decide (s.consumption = "") ||
    decide (s.governmentSpending = "")

/-- The synchronous part of handlePredict up to issuing the POST: when
the guard fails, the handler returns with the state untouched and no
request; otherwise it sets the calculating flag, clears the previous
error, and sends the assembled body. -/
def handlePredict (s : DashboardState) : DashboardState × Option Payload :=
  if predictGuardFails s then (s, none)
  else
    ({ s with isCalculating := true, apiError := none },
      some (buildPredictionRequest s))

/-- The disabled condition of the Generate Prediction button
(dashboard.tsx line 549). -/
def generateButtonDisabled (s : DashboardState) : Bool :=
  decide (s.selectedCountry = "") || decide (s.populationGrowth = "") ||
    decide (s.exportsGrowth = "") || decide (s.importsGrowth = "") ||
    decide (s.investment = "") || decide (s.consumption = "") ||
    decide (s.governmentSpending = "") || s.isCalculating

/-! ## Claim theorems -/

/-- C1: for every record stream whose entity-year keys are distinct
(each record is one entity-year observation), every row emitted by
create_lagged_features takes its six feature values from an actual
record of its own country at a strictly earlier year than its target
year (no lookahead), and for every entity the number of emitted rows is
the number of the entity's records minus one: only the entity's
earliest record is dropped.  The count holds for every entity, so in
particular for one whose records cover fully contiguous years.  The
input order does not matter because the builder sorts first. -/
theorem c1_lagged_no_lookahead_and_row_count
    (records : List IndicatorSet) (hkeys : KeysDistinct records) :
    (∀ row ∈ create_lagged_features records,
        row.featYear < row.year ∧
        ∃ src ∈ records, src.country = row.country ∧
          src.year = row.featYear ∧ row.features = featureVec src) ∧
    (∀ cty : String,
        (create_lagged_features records).countP
            (fun row => decide (row.country = cty)) =
          records.countP (fun r => decide (r.country = cty)) - 1) := by
  constructor
  · intro row hrow
    obtain ⟨p, q, hadj, hc, rfl⟩ := mem_lagPass _ row hrow
    have hsorted := sortRecords_sorted records
    have hkeys2 := sortRecords_keysDistinct hkeys
    have hlt := adjacent_year_lt hsorted hkeys2 hadj hc
    exact ⟨hlt, p,
      (sortRecords_perm records).mem_iff.mp (adjacentIn_mem_left hadj),
      hc, rfl, rfl⟩
  · intro cty
    have h1 := lagPass_count cty (sortRecords records) (sortRecords_sorted records)
    have h2 := (sortRecords_perm records).countP_eq
      (fun r => decide (r.country = cty))
    show (lagPass (sortRecords records)).countP
        (fun row => decide (row.country = cty)) = _
    rw [h1, h2]

def wRecA0 : IndicatorSet := ⟨"A", 2000, 1, 1, 1, 1, 1, 1, 5⟩
def wRecA1 : IndicatorSet := ⟨"A", 2001, 2, 2, 2, 2, 2, 2, 6⟩
def wRecB0 : IndicatorSet := ⟨"B", 2000, 3, 3, 3, 3, 3, 3, 7⟩

/-- Witness for C1 at a concrete three-record stream. -/
theorem c1_witness :
    (create_lagged_features [wRecA0, wRecA1, wRecB0]).countP
        (fun row => decide (row.country = "A")) =
      [wRecA0, wRecA1, wRecB0].countP (fun r => decide (r.country = "A")) - 1 :=
  (c1_lagged_no_lookahead_and_row_count [wRecA0, wRecA1, wRecB0] (by decide)).2 "A"

def gapRec0 : IndicatorSet := ⟨"A", 2000, 1, 1, 1, 1, 1, 1, 5⟩
def gapRec5 : IndicatorSet := ⟨"A", 2005, 2, 2, 2, 2, 2, 2, 7⟩

/-- C2 counterexample: entity A has a record at year 2005 but none at
year 2004 (a gap); the claim says the 2005 row is dropped, yet
create_lagged_features emits it, with the feature values of the year
2000 record attached, so the emitted rows at year 2005 number one, not
zero. -/
theorem c2_counterexample :
    create_lagged_features [gapRec0, gapRec5] =
      [⟨"A", 2005, 2000, ⟨1, 1, 1, 1, 1, 1⟩, 7⟩] ∧
    ¬ ((create_lagged_features [gapRec0, gapRec5]).countP
        (fun row => decide (row.year = 2005)) = 0) := by
  constructor <;> decide

/-- C2 (amended): for a record at year Y of an entity that has some
record at an earlier year, the builder emits a row for year Y even when
year Y-1 is absent, attaching as features the recorded values of a
same-entity record from a strictly earlier year (the group predecessor);
no value is imputed and only each entity's earliest record is
dropped. -/
theorem c2_amended_gap_rows_emitted
    (records : List IndicatorSet) (hkeys : KeysDistinct records)
    (r : IndicatorSet) (hr : r ∈ records)
    (r₀ : IndicatorSet) (hr₀ : r₀ ∈ records)
    (hc : r₀.country = r.country) (hy : r₀.year < r.year) :
    ∃ row ∈ create_lagged_features records,
      row.country = r.country ∧ row.year = r.year ∧
      row.featYear < r.year ∧
      ∃ src ∈ records, src.country = r.country ∧ src.year = row.featYear ∧
        row.features = featureVec src := by
  have hsorted := sortRecords_sorted records
  have hkeys2 := sortRecords_keysDistinct hkeys
  have hrs : r ∈ sortRecords records :=
    (sortRecords_perm records).mem_iff.mpr hr
  have hr₀s : r₀ ∈ sortRecords records :=
    (sortRecords_perm records).mem_iff.mpr hr₀
  obtain ⟨row, hrow, h1, h2, h3, src, hsrc, h4, h5, h6⟩ :=
    lagPass_emits (sortRecords records) hsorted hkeys2 r hrs r₀ hr₀s hc hy
  exact ⟨row, hrow, h1, h2, h3, src,
    (sortRecords_perm records).mem_iff.mp hsrc, h4, h5, h6⟩

/-- Witness for the amended C2 at the concrete gap stream. -/
theorem c2_amended_witness :
    ∃ row ∈ create_lagged_features [gapRec0, gapRec5],
      row.country = gapRec5.country ∧ row.year = gapRec5.year ∧
      row.featYear < gapRec5.year ∧
      ∃ src ∈ [gapRec0, gapRec5], src.country = gapRec5.country ∧
        src.year = row.featYear ∧ row.features = featureVec src :=
  c2_amended_gap_rows_emitted [gapRec0, gapRec5] (by decide) gapRec5
    (by decide) gapRec0 (by decide) (by decide) (by decide)

/-- C3: the temporal splitter returns as train exactly the rows with
year below the cut and as test exactly the rows with year at or above
it, each a sublist of the input (order preserved, no shuffling), and
every train year is strictly below every test year, so when both
partitions are non-empty the maximum train year is strictly below the
minimum test year. -/
theorem c3_temporal_split_partitions (rows : List LaggedRow) (cut : Int) :
    ((temporal_train_test_split rows cut).1.Sublist rows) ∧
    ((temporal_train_test_split rows cut).2.Sublist rows) ∧
    (∀ r : LaggedRow, r ∈ (temporal_train_test_split rows cut).1 ↔
        r ∈ rows ∧ r.year < cut) ∧
    (∀ r : LaggedRow, r ∈ (temporal_train_test_split rows cut).2 ↔
        r ∈ rows ∧ cut ≤ r.year) ∧
    (∀ a ∈ (temporal_train_test_split rows cut).1,
      ∀ b ∈ (temporal_train_test_split rows cut).2, a.year < b.year) := by
  refine ⟨List.filter_sublist rows, List.filter_sublist rows, ?_, ?_, ?_⟩
  · intro r
    simp [temporal_train_test_split, List.mem_filter]
  · intro r
    simp [temporal_train_test_split, List.mem_filter, ge_iff_le]
  · intro a ha b hb
    have h1 : a.year < cut := by
      have := (List.mem_filter.mp ha).2
      simpa using this
    have h2 : cut ≤ b.year := by
      have := (List.mem_filter.mp hb).2
      simpa using this
    exact lt_of_lt_of_le h1 h2

/-- C4: a payload with at least one of the seven required fields absent
is rejected with the missing-fields message naming all missing fields
at once, no validated data is returned, and the characterization of the
named list is exact; the theorem holds for every such payload whatever
its other defects, so this check precedes every other check. -/
theorem c4_missing_fields_all_at_once (data : Payload)
    (h : required_fields.filter (fun f => (plookup f data).isNone) ≠ []) :
    validate_prediction_input data =
      ⟨false, some ("Missing required fields: " ++ String.intercalate ", "
        (required_fields.filter (fun f => (plookup f data).isNone))), none⟩ ∧
    ∀ f : String,
      f ∈ required_fields.filter (fun f => (plookup f data).isNone) ↔
        (f ∈ required_fields ∧ plookup f data = none) := by
  constructor
  · have hne : (required_fields.filter
        (fun f => (plookup f data).isNone)).isEmpty = false := by
      rcases hl : required_fields.filter (fun f => (plookup f data).isNone) with
        _ | ⟨a, t⟩
      · exact absurd hl h
      · rfl
    simp [validate_prediction_input, hne]
  · intro f
    simp [List.mem_filter, Option.isNone_iff_eq_none]

def c4payload : Payload :=
  [("Country", RawValue.str "USA"), ("Population", RawValue.num 1)]

/-- Witness for C4 at a payload missing five fields. -/
theorem c4_witness :
    validate_prediction_input c4payload =
      ⟨false, some ("Missing required fields: " ++ String.intercalate ", "
        (required_fields.filter (fun f => (plookup f c4payload).isNone))),
        none⟩ ∧
    required_fields.filter (fun f => (plookup f c4payload).isNone) =
      ["Exports", "Imports", "Investment", "Consumption", "Govt_Spend"] :=
  ⟨(c4_missing_fields_all_at_once c4payload (by decide)).1, by decide⟩

def c5payload : Payload :=
  [("Country", RawValue.str "USA"), ("Population", RawValue.num 150),
   ("Exports", RawValue.num 1), ("Imports", RawValue.num 1),
   ("Investment", RawValue.num 1), ("Consumption", RawValue.num 1),
   ("Govt_Spend", RawValue.num 1)]

/-- C5: at the failing input with Population 150 the validator rejects
with the message naming the field and echoing the value, but the
message omits the bounds, although the documented example output in the
same file shows them; the second conjunct records the divergence from
the documented message. -/
theorem c5_out_of_range_message_lacks_bounds :
    validate_prediction_input c5payload =
      ⟨false, some "Population value 150.0 is outside reasonable range",
        none⟩ ∧
    (validate_prediction_input c5payload).msg ≠
      some "Population value 150.0 is outside reasonable range (-100 to 100)" := by
  constructor <;> decide

def c6payloadA : Payload :=
  [("Country", RawValue.str "   "), ("Population", RawValue.str "abc"),
   ("Exports", RawValue.num 1), ("Imports", RawValue.num 1),
   ("Investment", RawValue.num 1), ("Consumption", RawValue.num 1),
   ("Govt_Spend", RawValue.num 1)]

def c6payloadB : Payload :=
  [("Country", RawValue.str "USA"), ("Population", RawValue.num 150),
   ("Exports", RawValue.str "abc"), ("Imports", RawValue.num 1),
   ("Investment", RawValue.num 1), ("Consumption", RawValue.num 1),
   ("Govt_Spend", RawValue.num 1)]

/-- C6 counterexample: a payload with an uncoercible Population and a
whitespace-only Country fails with the empty-country message, not the
invalid-type one the claimed phase order requires; and a payload with
an out-of-range Population followed by an uncoercible Exports fails
with the out-of-range message for Population, not the invalid-type one
for Exports: country trimming runs before any coercion, and coercion
and range checking are interleaved per field. -/
theorem c6_counterexample :
    validate_prediction_input c6payloadA =
      ⟨false, some "Country name cannot be empty", none⟩ ∧
    (validate_prediction_input c6payloadA).msg ≠
      some "Invalid Population value: must be a number" ∧
    validate_prediction_input c6payloadB =
      ⟨false, some "Population value 150.0 is outside reasonable range",
        none⟩ ∧
    (validate_prediction_input c6payloadB).msg ≠
      some "Invalid Exports value: must be a number" := by
  refine ⟨by decide, by decide, by decide, by decide⟩

/-- First defect wins inside the numeric loop: with every field before
f coercible and in range, the loop fails for f with the invalid-type
message when f does not coerce, and with the out-of-range message when
it coerces outside the bounds. -/
theorem checkNumerics_first_defect (data : Payload) :
    ∀ (pre : List String) (f : String) (post : List String),
      (∀ g ∈ pre, ∃ v, pyFloat (pget g data) = some v ∧
        -100 ≤ v ∧ v ≤ 100) →
      ((pyFloat (pget f data) = none →
          checkNumerics (pre ++ f :: post) data =
            Except.error ("Invalid " ++ f ++ " value: must be a number")) ∧
       (∀ w, pyFloat (pget f data) = some w → ¬(-100 ≤ w ∧ w ≤ 100) →
          checkNumerics (pre ++ f :: post) data =
            Except.error (f ++ " value " ++ pyFloatRepr w ++
              " is outside reasonable range")))
  | [], f, post, _ => by
    constructor
    · intro h
      simp [checkNumerics, h]
    · intro w hw hrange
      simp [checkNumerics, hw, hrange]
  | g :: pre, f, post, hpre => by
    obtain ⟨v, hv, hr⟩ := hpre g (by simp)
    have IH := checkNumerics_first_defect data pre f post
      (fun x hx => hpre x (by simp [hx]))
    constructor
    · intro h
      have h1 := IH.1 h
      simp [checkNumerics, hv, hr, h1]
    · intro w hw hrange
      have h1 := IH.2 w hw hrange
      simp [checkNumerics, hv, hr, h1]

/-- C6 (amended): after the missing-fields check, the validator first
trims Country and rejects an empty result with the empty-country
message regardless of any numeric defect; only then does it walk the
numeric fields in their fixed order, coercing and range-checking each
field before the next, the first defect deciding the message.  The
vocabulary lookup is not part of the validator at all: the unknown
country rejection happens afterwards, inside the predict route.  So a
payload with both an uncoercible field and an empty country fails with
the empty-country message, and one whose out-of-range field precedes an
uncoercible field fails with the out-of-range message. -/
theorem c6_amended_validate_phase_order (data : Payload)
    (hnomiss : required_fields.filter (fun f => (plookup f data).isNone) = []) :
    (pyStrip (pyStr (pget "Country" data)) = "" →
       validate_prediction_input data =
         ⟨false, some "Country name cannot be empty", none⟩) ∧
    (pyStrip (pyStr (pget "Country" data)) ≠ "" →
       ∀ (pre : List String) (f : String) (post : List String),
         numeric_fields = pre ++ f :: post →
         (∀ g ∈ pre, ∃ v, pyFloat (pget g data) = some v ∧
           -100 ≤ v ∧ v ≤ 100) →
         ((pyFloat (pget f data) = none →
             validate_prediction_input data =
               ⟨false, some ("Invalid " ++ f ++ " value: must be a number"),
                 none⟩) ∧
          (∀ w, pyFloat (pget f data) = some w → ¬(-100 ≤ w ∧ w ≤ 100) →
             validate_prediction_input data =
               ⟨false, some (f ++ " value " ++ pyFloatRepr w ++
                 " is outside reasonable range"), none⟩))) := by
  constructor
  · intro hc
    simp [validate_prediction_input, hnomiss, hc]
  · intro hc pre f post hsplit hpre
    have hfd := checkNumerics_first_defect data pre f post hpre
    constructor
    · intro h
      have h1 := hfd.1 h
      rw [← hsplit] at h1
      simp [validate_prediction_input, hnomiss, hc, h1]
    · intro w hw hrange
      have h1 := hfd.2 w hw hrange
      rw [← hsplit] at h1
      simp [validate_prediction_input, hnomiss, hc, h1]

/-- Witness for the amended C6: Population is the first numeric field
and is out of range in the concrete payload, so the validator reports
it although the later Exports field is uncoercible. -/
theorem c6_amended_witness :
    validate_prediction_input c6payloadB =
      ⟨false, some ("Population" ++ " value " ++ pyFloatRepr 150 ++
        " is outside reasonable range"), none⟩ :=
  ((c6_amended_validate_phase_order c6payloadB (by decide)).2 (by decide)
    [] "Population" ["Exports", "Imports", "Investment", "Consumption",
      "Govt_Spend"] (by decide) (fun g hg => absurd hg (by simp))).2
    150 (by decide) (by decide)

def histPoint2030 : ChartDataPoint := ⟨"2030", 1, PointKind.historical⟩

/-- C7 counterexample: for a history whose last point is the year 2030,
the appended forecast points carry the fixed year strings 2025 and
2026, not 2031 and 2032 as the claim requires, and the year strings are
not strictly increasing past the last historical year. -/
theorem c7_counterexample :
    addPredictionToTimeline 2 [histPoint2030] =
      [histPoint2030, ⟨"2025", 2, PointKind.prediction⟩,
        ⟨"2026", mkRat 21 10, PointKind.prediction⟩] ∧
    (addPredictionToTimeline 2 [histPoint2030]).map ChartDataPoint.year ≠
      ["2030", "2031", "2032"] := by
  constructor <;> decide

/-- C7 (amended): addPredictionToTimeline returns the historical points
unmodified at the front, followed by exactly two points tagged as
predictions whose growth for point k is the predicted growth scaled by
1.05 to the power k-1 and rounded to two decimals; but the two year
strings are the fixed literals 2025 and 2026, not the continuation of
the last historical year, so the years only continue the history when
it ends at 2024. -/
theorem c7_amended_append_forecast (pts : List ChartDataPoint) (g : ℚ) :
    (addPredictionToTimeline g pts).take pts.length = pts ∧
    (addPredictionToTimeline g pts).length = pts.length + 2 ∧
    (addPredictionToTimeline g pts).drop pts.length =
      [⟨"2025", roundTo2 (g * mkRat 105 100 ^ (0 : Nat)),
         PointKind.prediction⟩,
       ⟨"2026", roundTo2 (g * mkRat 105 100 ^ (1 : Nat)),
         PointKind.prediction⟩] := by
  refine ⟨?_, ?_, ?_⟩
  · show (pts ++ _).take pts.length = pts
    exact List.take_left pts _
  · simp [addPredictionToTimeline]
  · show (pts ++ _).drop pts.length = _
    rw [List.drop_left]
    simp [jsMul_eq_mul]

/-- C8: for every state of the primary forecasting capability and every
validated scenario, the prediction service returns a result and never
an error: when the primary capability yields a value the result is
tagged model, and when it is unavailable the failure is absorbed and
the result carries the rounded deterministic simulation of the six
inputs, tagged simulation. -/
theorem c8_predict_service_never_fails
    (primary : ScenarioInputs → Option ℚ) (i : ScenarioInputs) :
    ((∃ g, primary i = some g) →
       (predict_service primary i).method = PredMethod.model) ∧
    (primary i = none →
       (predict_service primary i).method = PredMethod.simulation ∧
       (predict_service primary i).predicted_growth =
         roundTo2 (simulate_growth i)) := by
  constructor
  · rintro ⟨g, hg⟩
    simp [predict_service, hg]
  · intro h
    simp [predict_service, h]

def brazilInputs : ScenarioInputs :=
  ⟨mkRat 11 10, mkRat 52 10, mkRat 48 10, mkRat 35 10, mkRat 28 10, 2⟩

/-- Witness for C8 at the concrete scenario of the spec, once with the
primary model available and once with it forced unavailable. -/
theorem c8_witness :
    (predict_service (fun _ => some 3) brazilInputs).method =
      PredMethod.model ∧
    (predict_service (fun _ => none) brazilInputs).method =
      PredMethod.simulation :=
  ⟨(c8_predict_service_never_fails (fun _ => some 3) brazilInputs).1
      ⟨3, rfl⟩,
   ((c8_predict_service_never_fails (fun _ => none) brazilInputs).2 rfl).1⟩

def c9state : DashboardState :=
  ⟨"Brazil", "1.1", "5.2", "4.8", "3.5", "2.8", "2.0",
    false, none, "", none⟩

/-- C9 counterexample: the request body the dashboard assembles does
not use the seven wire names of the claim; in particular no field is
named population_growth. -/
theorem c9_counterexample :
    (buildPredictionRequest c9state).map Prod.fst ≠ specWireNames ∧
    "population_growth" ∉ (buildPredictionRequest c9state).map Prod.fst := by
  constructor <;> decide

/-- C9 (amended): for every dashboard state, the request body contains
exactly the seven field names Country, Population_Growth_Rate,
Exports_Growth_Rate, Imports_Growth_Rate, Investment_Growth_Rate,
Consumption_Growth_Rate and Govt_Spend_Growth_Rate, with the
Government Spending display input mapped to Govt_Spend_Growth_Rate;
and the mismatch between these names and the ones the validator of
BEFORE_AFTER_COMPARISON.md expects surfaces as a missing-fields
rejection naming the six absent numeric names, not as a silent
zero. -/
theorem c9_amended_request_field_names (s : DashboardState) :
    (buildPredictionRequest s).map Prod.fst =
      ["Country", "Population_Growth_Rate", "Exports_Growth_Rate",
       "Imports_Growth_Rate", "Investment_Growth_Rate",
       "Consumption_Growth_Rate", "Govt_Spend_Growth_Rate"] ∧
    (validate_prediction_input (buildPredictionRequest s)).ok = false ∧
    (validate_prediction_input (buildPredictionRequest s)).msg =
      some ("Missing required fields: " ++ String.intercalate ", "
        ["Population", "Exports", "Imports", "Investment",
         "Consumption", "Govt_Spend"]) := by
  refine ⟨rfl, rfl, rfl⟩

/-- C10: when the selected country or any of the six indicator inputs
is the empty string, handlePredict returns at once with the state
unchanged (so the prediction, prediction-method and error state keep
their values) and no request is issued; and the Generate Prediction
button is disabled in exactly those states or while a calculation is in
progress. -/
theorem c10_predict_guard_and_button (s : DashboardState) :
    ((s.selectedCountry = "" ∨ s.populationGrowth = "" ∨
        s.exportsGrowth = "" ∨ s.importsGrowth = "" ∨
        s.investment = "" ∨ s.consumption = "" ∨
        s.governmentSpending = "") →
      handlePredict s = (s, none)) ∧
    (generateButtonDisabled s = true ↔
      (s.selectedCountry = "" ∨ s.populationGrowth = "" ∨
        s.exportsGrowth = "" ∨ s.importsGrowth = "" ∨
        s.investment = "" ∨ s.consumption = "" ∨
        s.governmentSpending = "" ∨ s.isCalculating = true)) := by
  constructor
  · intro h
    have hg : predictGuardFails s = true := by
      simp only [predictGuardFails, Bool.or_eq_true, decide_eq_true_eq]
      tauto
    simp [handlePredict, hg]
  · simp only [generateButtonDisabled, Bool.or_eq_true, decide_eq_true_eq]
    tauto

def c10state : DashboardState :=
  ⟨"", "1", "1", "1", "1", "1", "1", false, none, "", none⟩

/-- Witness for C10 at a state with no selected country. -/
theorem c10_witness : handlePredict c10state = (c10state, none) :=
  (c10_predict_guard_and_button c10state).1 (Or.inl rfl)
